import Mathlib

/-!
Verification of the `bioassay` repository (diagnostic-dose analysis,
dose-response probit analysis, file loading) against its specification.

Modelling conventions:
* Tables (pandas DataFrames) are lists of records; numeric cells are exact
  rationals.
* External statistical-library primitives (the Student-t quantile function,
  the standard-normal quantile function, square root, the exponential, and
  the probit-GLM fitter) are abstract function parameters: every theorem
  holds for an arbitrary choice of them, in particular for the real ones.
* A Python-level division whose denominator comes from the data is modelled
  by `pdiv`, which fails (`none`) on a zero denominator, matching the
  spec's reading of a zero denominator as a failure of the computation.
-/

namespace Bioassay

/-- Division as translated from Python source: a zero denominator is a
failure of the computation, every other case is exact rational division. -/
def pdiv (a b : ℚ) : Option ℚ := if b = 0 then none else some (a / b)

/-- One row of a diagnostic-dose table: the values of the caller-designated
grouping columns are kept as a string association list `attrs`, and the
caller-designated total-count and dead-count columns are the fields
`total` and `dead`. -/
structure DiagRow where
  attrs : List (String × String)
  total : ℚ
  dead : ℚ
deriving DecidableEq

/-- The three derived metrics emitted per group by the diagnostic-dose
analyzer (`mean_mortality`, `ci_lower`, `ci_upper`, all percentages). -/
structure CIRec where
  mean_mortality : ℚ
  ci_lower : ℚ
  ci_upper : ℚ
deriving DecidableEq

/-- `scipy.stats.t.interval(conf, df, loc, scale)` with the Student-t
quantile function abstracted as `tPpf` (first argument the probability,
second the degrees of freedom): the interval is
`(loc + scale * ppf((1-conf)/2), loc + scale * ppf((1+conf)/2))`. -/
def t_interval (tPpf : ℚ → ℚ → ℚ) (conf df loc scale : ℚ) : ℚ × ℚ :=
  (loc + scale * tPpf ((1 - conf) / 2) df, loc + scale * tPpf ((1 + conf) / 2) df)

/-- `calculate_ci` from `diagnostic-dose.py` lines 20-25, the per-element
computation applied to the counts of a row: `n = row[total_column]`,
`p = row[dead_column] / n`, `se = sqrt(p*(1-p)/n)`,
`ci = stats.t.interval(0.95, n-1, loc=p, scale=se)`, emitting
`p*100, ci[0]*100, ci[1]*100`.  `sqrtA` abstracts `np.sqrt`. -/
def calculate_ci (tPpf : ℚ → ℚ → ℚ) (sqrtA : ℚ → ℚ) (row : DiagRow) : Option CIRec :=
  match pdiv row.dead row.total with
  | none => none
  | some p =>
    match pdiv (p * (1 - p)) row.total with
    | none => none
    | some v =>
      let se := sqrtA v
      let ci := t_interval tPpf 0.95 (row.total - 1) p se
      some ⟨p * 100, ci.1 * 100, ci.2 * 100⟩

/-- Comparison of optional group-key cells: a missing cell sorts first,
present cells compare by string order. -/
def optCmp : Option String → Option String → Ordering
  | none, none => Ordering.eq
  | none, some _ => Ordering.lt
  | some _, none => Ordering.gt
  | some a, some b => compare a b

/-- Lexicographic order on group-key tuples, the order in which pandas
`groupby` (with its default `sort=True`) emits the groups. -/
def keyListLe : List (Option String) → List (Option String) → Bool
  | [], _ => true
  | _ :: _, [] => false
  | x :: xs, y :: ys =>
    match optCmp x y with
    | Ordering.lt => true
    | Ordering.gt => false
    | Ordering.eq => keyListLe xs ys

/-- Insert a group key into an already sorted list of keys. -/
def insertKey (k : List (Option String)) :
    List (List (Option String)) → List (List (Option String))
  | [] => [k]
  | x :: xs => if keyListLe k x then k :: x :: xs else x :: insertKey k xs

/-- Insertion sort of group keys by `keyListLe`. -/
def sortKeys : List (List (Option String)) → List (List (Option String))
  | [] => []
  | k :: ks => insertKey k (sortKeys ks)

/-- The group key of a row: the row's values of the caller's grouping
columns, in the caller-given column order. -/
def groupKey (gcols : List String) (row : DiagRow) : List (Option String) :=
  gcols.map (fun c => row.attrs.lookup c)

/-- The per-group metrics payload: `calculate_ci` applied element-wise to
the rows of the group (pandas broadcasts the arithmetic of lines 21-24 over
the group's rows); a failing row fails the group. -/
def ciList (tPpf : ℚ → ℚ → ℚ) (sqrtA : ℚ → ℚ) : List DiagRow → Option (List CIRec)
  | [] => some []
  | r :: rs =>
    match calculate_ci tPpf sqrtA r with
    | none => none
    | some c => (ciList tPpf sqrtA rs).map (fun l => c :: l)

/-- One row of the analyzer's result table: the group key (the grouping
columns, restored as leading columns by `reset_index`) and the derived
metrics of that group. -/
structure OutRow where
  key : List (Option String)
  metrics : Option (List CIRec)
deriving DecidableEq

/-- `analyze_diagnostic_dose` from `diagnostic-dose.py` lines 7-30:
`df.groupby(groupby_columns).apply(calculate_ci).reset_index()`.  `groupby`
with its default `sort=True` emits one group per distinct key, in ascending
sorted order of the key tuple. -/
def analyze_diagnostic_dose (tPpf : ℚ → ℚ → ℚ) (sqrtA : ℚ → ℚ)
    (gcols : List String) (df : List DiagRow) : List OutRow :=
  (sortKeys ((df.map (groupKey gcols)).dedup)).map
    (fun k => ⟨k, ciList tPpf sqrtA (df.filter (fun r => decide (groupKey gcols r = k)))⟩)

/-- The distinct group keys in first-seen (insertion/discovery) order, the
order the claim asserts for the analyzer's output groups. -/
def firstSeenKeys (gcols : List String) (df : List DiagRow) : List (List (Option String)) :=
  df.foldl (fun acc r => if groupKey gcols r ∈ acc then acc else acc ++ [groupKey gcols r]) []

/-- One row of a dose-response table (`strain`, `concentration`, `total`,
`dead`); `proportion` is the derived column the code assigns, `none` while
the column is absent. -/
structure DoseRow where
  strain : String
  concentration : ℚ
  total : ℚ
  dead : ℚ
  proportion : Option ℚ
deriving DecidableEq

/-- The column assignment `data['proportion'] = data['dead'] / data['total']`
(`dose-response.py` line 23 and line 72): each row gets the `proportion`
column set to its own `dead/total`, all other cells and the row order kept. -/
def addProportion : List DoseRow → Option (List DoseRow)
  | [] => some []
  | r :: rs =>
    match pdiv r.dead r.total with
    | none => none
    | some q => (addProportion rs).map (fun t => { r with proportion := some q } :: t)

/-- The result of the probit-GLM fit
`glm("proportion ~ concentration", data, family=Binomial(link=probit)).fit()`:
intercept `beta0 = result.params[0]`, slope `beta1 = result.params[1]`, and
their standard errors `se0`, `se1` as obtained from
`np.sqrt(np.diag(result.cov_params()))`. -/
structure GlmFit where
  beta0 : ℚ
  beta1 : ℚ
  se0 : ℚ
  se1 : ℚ
deriving DecidableEq

/-- The LC-estimate record returned per fit: the LC value and the bounds of
its 95% confidence interval. -/
structure LCRec where
  lc : ℚ
  ci_lower : ℚ
  ci_upper : ℚ
deriving DecidableEq

/-- The fit a call of `calculate_lc` on `data` works with: the abstract
fitter applied to `data` with its `proportion` column assigned.  `none`
models a fit that raises / does not converge (and, under the `pdiv`
convention, a zero total count while building the proportion column). -/
def fitOf (glmFit : List DoseRow → Option GlmFit) (data : List DoseRow) : Option GlmFit :=
  (addProportion data).bind glmFit

/-- `calculate_lc` from `dose-response.py` lines 21-41: assign the
`proportion` column, fit the probit GLM, and return
`LC = exp((phiInv(lc_value/100) - beta0) / beta1)` with the 95% interval
obtained by perturbing `beta0` and `beta1` by `±1.96` standard errors
inside the same formula.  The first component of the result is the frame
the call worked on (the argument with the `proportion` column assigned),
the second the LC record; `phiInv` abstracts `stats.norm.ppf` and `expA`
abstracts `np.exp`. -/
def calculate_lc (phiInv expA : ℚ → ℚ) (glmFit : List DoseRow → Option GlmFit)
    (lcv : ℚ) (data : List DoseRow) : List DoseRow × Option LCRec :=
  match addProportion data with
  | none => (data, none)
  | some data' =>
    match glmFit data' with
    | none => (data', none)
    | some f =>
      match pdiv (phiInv (lcv / 100) - f.beta0) f.beta1,
            pdiv (phiInv (lcv / 100) - f.beta0 - 1.96 * f.se0) (f.beta1 + 1.96 * f.se1),
            pdiv (phiInv (lcv / 100) - f.beta0 + 1.96 * f.se0) (f.beta1 - 1.96 * f.se1) with
      | some z, some zl, some zu => (data', some ⟨expA z, expA zl, expA zu⟩)
      | _, _, _ => (data', none)

/-- `df['strain'].unique()`: the distinct strain values in first-seen
order. -/
def uniqueStrains (df : List DoseRow) : List String :=
  df.foldl (fun acc r => if r.strain ∈ acc then acc else acc ++ [r.strain]) []

/-- `df[df['strain'] == strain]`: pandas boolean-mask selection, which
yields a new frame holding the matching rows (writes to it do not reach
`df`). -/
def filterStrain (s : String) (df : List DoseRow) : List DoseRow :=
  df.filter (fun r => decide (r.strain = s))

/-- The `results[strain] = calculate_lc(strain_data)` loop: an insertion-
ordered dictionary built strain by strain; an exception in one strain's
calculation (a `none`) aborts the whole loop. -/
def collectStrains (g : String → Option LCRec) : List String → Option (List (String × LCRec))
  | [] => some []
  | s :: rest =>
    match g s with
    | none => none
    | some r => (collectStrains g rest).map (fun m => (s, r) :: m)

/-- The value `calculate_lc_probit` returns: a strain-keyed dictionary when
`by_strain` is true, a single record otherwise; `none` inside models the
call raising. -/
inductive ProbitResult where
  | perStrain (m : Option (List (String × LCRec)))
  | single (r : Option LCRec)
deriving DecidableEq

/-- `calculate_lc_probit` from `dose-response.py` lines 8-51.  The first
component of the result is the caller's frame after the call: with
`by_strain` true each strain is processed on the copy produced by the
boolean-mask selection, so the caller's frame is returned untouched; with
`by_strain` false `calculate_lc` works on (and mutates) the caller's frame
itself. -/
def calculate_lc_probit (phiInv expA : ℚ → ℚ) (glmFit : List DoseRow → Option GlmFit)
    (lcv : ℚ) (df : List DoseRow) (by_strain : Bool) : List DoseRow × ProbitResult :=
  if by_strain then
    (df, ProbitResult.perStrain (collectStrains
      (fun s => (calculate_lc phiInv expA glmFit lcv (filterStrain s df)).2)
      (uniqueStrains df)))
  else
    let p := calculate_lc phiInv expA glmFit lcv df
    (p.1, ProbitResult.single p.2)

/-- Table effect of `plot_lc_probit` (`dose-response.py` line 72) on the
caller's frame: `df['proportion'] = df['dead'] / df['total']` is the only
statement of the function that writes to `df`; all later statements read
`df` or build library objects. -/
def plot_lc_probit_df (df : List DoseRow) : Option (List DoseRow) :=
  addProportion df

/-- `str.lower()` on a file path, character by character (ASCII letters
are what extension dispatch compares). -/
def strLower (s : String) : String := ⟨s.data.map Char.toLower⟩

/-- The index of the last occurrence of `c` in `cs`, if any. -/
def lastIdxOf (c : Char) : List Char → Option Nat
  | [] => none
  | x :: xs =>
    match lastIdxOf c xs with
    | some i => some (i + 1)
    | none => if x = c then some 0 else none

/-- `os.path.splitext`: split off the extension at the last dot of the
final path component, unless every character of that component before that
dot is itself a dot (so ".bashrc" has no extension). -/
def splitext (s : String) : String × String :=
  let cs := s.data
  match lastIdxOf '.' cs, lastIdxOf '/' cs with
  | none, _ => (s, "")
  | some d, sepIdx =>
    let start := match sepIdx with | none => 0 | some i => i + 1
    if start ≤ d ∧ ((cs.drop start).take (d - start)).any (fun ch => ch ≠ '.') then
      (⟨cs.take d⟩, ⟨cs.drop d⟩)
    else (s, "")

/-- `load_bioassay_data` from `utilities.py` lines 4-34: dispatch on the
extension of the lowercased path; spreadsheet reader for `.xlsx`/`.xls`,
comma reader for `.csv`, tab reader for `.tsv`, any other extension an
unsupported-format error.  The `try`/`except` catches every failure,
prints one diagnostic line (second component) and returns `none` instead
of propagating; the readers are abstract and are applied to the original
(not lowercased) path. -/
def load_bioassay_data {α : Type} (readExcel readCsv readTsv : String → Except String α)
    (path : String) : Option α × List String :=
  let ext := (splitext (strLower path)).2
  let res : Except String α :=
    if ext = ".xlsx" ∨ ext = ".xls" then readExcel path
    else if ext = ".csv" then readCsv path
    else if ext = ".tsv" then readTsv path
    else Except.error ("Unsupported file format: " ++ ext)
  match res with
  | Except.ok df => (some df, [])
  | Except.error e => (none, ["Error loading file: " ++ e])

/-- Closed form of `calculate_ci` on a row with a nonzero total count. -/
theorem calculate_ci_eq (tPpf : ℚ → ℚ → ℚ) (sqrtA : ℚ → ℚ) (row : DiagRow)
    (h : row.total ≠ 0) :
    calculate_ci tPpf sqrtA row =
      some ⟨row.dead / row.total * 100,
        (t_interval tPpf 0.95 (row.total - 1) (row.dead / row.total)
          (sqrtA (row.dead / row.total * (1 - row.dead / row.total) / row.total))).1 * 100,
        (t_interval tPpf 0.95 (row.total - 1) (row.dead / row.total)
          (sqrtA (row.dead / row.total * (1 - row.dead / row.total) / row.total))).2 * 100⟩ := by
  simp [calculate_ci, pdiv, h]

/-- C2: for every group with counts `dead` and `total ≠ 0`, the emitted row
has `mean_mortality = (dead/total)*100`, and `ci_lower`, `ci_upper` are 100
times the endpoints of the two-sided 95% Student-t interval with `n-1`
degrees of freedom centered at `p = dead/total` and scaled by
`se = sqrt(p*(1-p)/n)`. -/
theorem C2_calculate_ci_formula (tPpf : ℚ → ℚ → ℚ) (sqrtA : ℚ → ℚ) (row : DiagRow)
    (h : row.total ≠ 0) :
    ∃ r, calculate_ci tPpf sqrtA row = some r ∧
      r.mean_mortality = row.dead / row.total * 100 ∧
      r.ci_lower = (t_interval tPpf 0.95 (row.total - 1) (row.dead / row.total)
        (sqrtA (row.dead / row.total * (1 - row.dead / row.total) / row.total))).1 * 100 ∧
      r.ci_upper = (t_interval tPpf 0.95 (row.total - 1) (row.dead / row.total)
        (sqrtA (row.dead / row.total * (1 - row.dead / row.total) / row.total))).2 * 100 := by
  exact ⟨_, calculate_ci_eq tPpf sqrtA row h, rfl, rfl, rfl⟩

/-- Witness for C2 at the spec's own scenario `total = 100, dead = 50`. -/
theorem C2_calculate_ci_formula_witness :
    ∃ r, calculate_ci (fun _ _ => (2 : ℚ)) (fun x => x) ⟨[], 100, 50⟩ = some r ∧
      r.mean_mortality = (50 : ℚ) / 100 * 100 ∧
      r.ci_lower = (t_interval (fun _ _ => (2 : ℚ)) 0.95 (100 - 1) ((50 : ℚ) / 100)
        ((fun x => x) ((50 : ℚ) / 100 * (1 - (50 : ℚ) / 100) / 100))).1 * 100 ∧
      r.ci_upper = (t_interval (fun _ _ => (2 : ℚ)) 0.95 (100 - 1) ((50 : ℚ) / 100)
        ((fun x => x) ((50 : ℚ) / 100 * (1 - (50 : ℚ) / 100) / 100))).2 * 100 :=
  C2_calculate_ci_formula (fun _ _ => 2) (fun x => x) ⟨[], 100, 50⟩ (by norm_num)

/-- C4: for counts with `0 < dead < total`, and any square-root and
Student-t quantile functions with the sign behaviour of the real ones
(positive square roots of positive numbers; the upper-tail 0.975 quantile
positive, the lower-tail 0.025 quantile negative at these degrees of
freedom), the emitted row satisfies `0 < mean_mortality < 100` and
`ci_lower < mean_mortality < ci_upper`. -/
theorem C4_ci_brackets_mean (tPpf : ℚ → ℚ → ℚ) (sqrtA : ℚ → ℚ) (row : DiagRow)
    (hd : 0 < row.dead) (hdt : row.dead < row.total)
    (hsq : ∀ x : ℚ, 0 < x → 0 < sqrtA x)
    (hup : 0 < tPpf ((1 + 0.95) / 2) (row.total - 1))
    (hlo : tPpf ((1 - 0.95) / 2) (row.total - 1) < 0) :
    ∃ r, calculate_ci tPpf sqrtA row = some r ∧
      0 < r.mean_mortality ∧ r.mean_mortality < 100 ∧
      r.ci_lower < r.mean_mortality ∧ r.mean_mortality < r.ci_upper := by
  have ht : (0 : ℚ) < row.total := lt_trans hd hdt
  have hne : row.total ≠ 0 := ne_of_gt ht
  have hp0 : 0 < row.dead / row.total := div_pos hd ht
  have hp1 : row.dead / row.total < 1 := (div_lt_one ht).2 hdt
  have hv : 0 < row.dead / row.total * (1 - row.dead / row.total) / row.total :=
    div_pos (mul_pos hp0 (by linarith)) ht
  have hse := hsq _ hv
  refine ⟨_, calculate_ci_eq tPpf sqrtA row hne, ?_, ?_, ?_, ?_⟩
  · nlinarith
  · nlinarith
  · simp only [t_interval]
    nlinarith [mul_neg_of_pos_of_neg hse hlo]
  · simp only [t_interval]
    nlinarith [mul_pos hse hup]

/-- Witness for C4 at `total = 2, dead = 1` with the identity as square
root and a step function with the right signs as t quantile. -/
theorem C4_ci_brackets_mean_witness :
    ∃ r, calculate_ci (fun q _ => if q < 1 / 2 then (-2 : ℚ) else 2) (fun x => x)
        ⟨[], 2, 1⟩ = some r ∧
      0 < r.mean_mortality ∧ r.mean_mortality < 100 ∧
      r.ci_lower < r.mean_mortality ∧ r.mean_mortality < r.ci_upper :=
  C4_ci_brackets_mean (fun q _ => if q < 1 / 2 then (-2 : ℚ) else 2) (fun x => x)
    ⟨[], 2, 1⟩ (by norm_num) (by norm_num) (fun x hx => hx) (by norm_num) (by norm_num)

/-- C6: a group with `total = 0` makes the analyzer's per-group computation
fail at the division `p = dead / total`; there is no special case for
`n = 0`. -/
theorem C6_calculate_ci_total_zero (tPpf : ℚ → ℚ → ℚ) (sqrtA : ℚ → ℚ) (row : DiagRow)
    (h : row.total = 0) : calculate_ci tPpf sqrtA row = none := by
  simp [calculate_ci, pdiv, h]

/-- Witness for C6 at `total = 0, dead = 5`. -/
theorem C6_calculate_ci_total_zero_witness :
    calculate_ci (fun _ _ => (0 : ℚ)) (fun x => x) ⟨[], 0, 5⟩ = none :=
  C6_calculate_ci_total_zero (fun _ _ => 0) (fun x => x) ⟨[], 0, 5⟩ rfl

theorem insertKey_perm (k : List (Option String)) (l : List (List (Option String))) :
    List.Perm (insertKey k l) (k :: l) := by
  induction l with
  | nil => simp [insertKey]
  | cons x xs ih =>
    simp only [insertKey]
    by_cases h : keyListLe k x = true
    · simp [h]
    · simp only [if_neg h]
      exact (ih.cons x).trans (List.Perm.swap k x xs)

theorem sortKeys_perm (l : List (List (Option String))) : List.Perm (sortKeys l) l := by
  induction l with
  | nil => simp [sortKeys]
  | cons k ks ih => exact (insertKey_perm k (sortKeys ks)).trans (ih.cons k)

/-- C7 counterexample: with a single grouping column whose value is "b" in
the first row and "a" in the second, the analyzer emits the groups in
sorted order ["a", "b"], not in the first-seen order ["b", "a"] the claim
asserts. -/
theorem C7_counterexample_sorted_not_first_seen :
    (analyze_diagnostic_dose (fun _ _ => (0 : ℚ)) (fun x => x) ["g"]
        [⟨[("g", "b")], 1, 1⟩, ⟨[("g", "a")], 1, 1⟩]).map OutRow.key
      = [[some "a"], [some "b"]] ∧
    firstSeenKeys ["g"] [⟨[("g", "b")], 1, 1⟩, ⟨[("g", "a")], 1, 1⟩]
      = [[some "b"], [some "a"]] ∧
    ([[some "a"], [some "b"]] : List (List (Option String))) ≠ [[some "b"], [some "a"]] := by
  refine ⟨?_, ?_, ?_⟩ <;> decide

/-- C7 amended: the analyzer returns exactly one row per distinct
combination of grouping-column values, with the grouping columns in the
caller-given order inside each key, but with the groups emitted in
ascending sorted order of the group-key tuple (pandas `groupby` sorts group
keys by default), not in first-seen order. -/
theorem C7_amended_one_sorted_row_per_group (tPpf : ℚ → ℚ → ℚ) (sqrtA : ℚ → ℚ)
    (gcols : List String) (df : List DiagRow) :
    (analyze_diagnostic_dose tPpf sqrtA gcols df).map OutRow.key
      = sortKeys ((df.map (groupKey gcols)).dedup) ∧
    ((analyze_diagnostic_dose tPpf sqrtA gcols df).map OutRow.key).Nodup := by
  have h1 : (analyze_diagnostic_dose tPpf sqrtA gcols df).map OutRow.key
      = sortKeys ((df.map (groupKey gcols)).dedup) := by
    simp [analyze_diagnostic_dose, List.map_map, Function.comp_def]
  refine ⟨h1, ?_⟩
  rw [h1]
  exact (sortKeys_perm _).nodup_iff.2 (List.nodup_dedup _)

/-- C8: the diagnostic-dose analyzer is a pure function of its arguments:
two calls with an identical table, grouping-column list, and statistical
primitives return identical result tables. -/
theorem C8_analyze_deterministic (tPpf : ℚ → ℚ → ℚ) (sqrtA : ℚ → ℚ)
    (gcols : List String) (df : List DiagRow) :
    analyze_diagnostic_dose tPpf sqrtA gcols df
      = analyze_diagnostic_dose tPpf sqrtA gcols df := rfl

theorem fitOf_some (glmFit : List DoseRow → Option GlmFit) (data : List DoseRow)
    (f : GlmFit) (hf : fitOf glmFit data = some f) :
    ∃ d', addProportion data = some d' ∧ glmFit d' = some f := by
  unfold fitOf at hf
  cases h : addProportion data with
  | none => rw [h] at hf; simp at hf
  | some d' => rw [h] at hf; exact ⟨d', rfl, hf⟩

/-- Success form of `calculate_lc`: with a converged fit, a nonzero slope,
and nonzero perturbed slopes, the returned record carries the LC formula
and the two perturbed-bound formulas. -/
theorem calculate_lc_snd_some (phiInv expA : ℚ → ℚ) (glmFit : List DoseRow → Option GlmFit)
    (lcv : ℚ) (data : List DoseRow) (f : GlmFit)
    (hf : fitOf glmFit data = some f) (h1 : f.beta1 ≠ 0)
    (h2 : f.beta1 + 1.96 * f.se1 ≠ 0) (h3 : f.beta1 - 1.96 * f.se1 ≠ 0) :
    (calculate_lc phiInv expA glmFit lcv data).2 =
      some ⟨expA ((phiInv (lcv / 100) - f.beta0) / f.beta1),
        expA ((phiInv (lcv / 100) - f.beta0 - 1.96 * f.se0) / (f.beta1 + 1.96 * f.se1)),
        expA ((phiInv (lcv / 100) - f.beta0 + 1.96 * f.se0) / (f.beta1 - 1.96 * f.se1))⟩ := by
  obtain ⟨d', hd', hfit⟩ := fitOf_some glmFit data f hf
  simp [calculate_lc, hd', hfit, pdiv, h1, h2, h3]

/-- Failure form of `calculate_lc`: an unconverged fit or a zero slope
yields no record. -/
theorem calculate_lc_snd_none (phiInv expA : ℚ → ℚ) (glmFit : List DoseRow → Option GlmFit)
    (lcv : ℚ) (data : List DoseRow)
    (h : fitOf glmFit data = none ∨ ∃ f, fitOf glmFit data = some f ∧ f.beta1 = 0) :
    (calculate_lc phiInv expA glmFit lcv data).2 = none := by
  rcases h with h | ⟨f, hf, hz⟩
  · cases hap : addProportion data with
    | none => simp [calculate_lc, hap]
    | some d' =>
      have hg : glmFit d' = none := by
        unfold fitOf at h
        rw [hap] at h
        simpa using h
      simp [calculate_lc, hap, hg]
  · obtain ⟨d', hd', hfit⟩ := fitOf_some glmFit data f hf
    simp [calculate_lc, hd', hfit, pdiv, hz]

/-- Inversion of `calculate_lc`: any returned record comes from a converged
fit with nonzero slope and carries the LC formula. -/
theorem calculate_lc_snd_inv (phiInv expA : ℚ → ℚ) (glmFit : List DoseRow → Option GlmFit)
    (lcv : ℚ) (data : List DoseRow) (r : LCRec)
    (h : (calculate_lc phiInv expA glmFit lcv data).2 = some r) :
    ∃ f, fitOf glmFit data = some f ∧ f.beta1 ≠ 0 ∧
      r.lc = expA ((phiInv (lcv / 100) - f.beta0) / f.beta1) := by
  cases hap : addProportion data with
  | none => simp [calculate_lc, hap] at h
  | some d' =>
    cases hg : glmFit d' with
    | none => simp [calculate_lc, hap, hg] at h
    | some f =>
      by_cases h1 : f.beta1 = 0
      · simp [calculate_lc, hap, hg, pdiv, h1] at h
      · by_cases h2 : f.beta1 + 1.96 * f.se1 = 0
        · simp [calculate_lc, hap, hg, pdiv, h1, h2] at h
        · by_cases h3 : f.beta1 - 1.96 * f.se1 = 0
          · simp [calculate_lc, hap, hg, pdiv, h1, h2, h3] at h
          · simp only [calculate_lc, hap, hg, pdiv, if_neg h1, if_neg h2, if_neg h3,
              Option.some.injEq] at h
            exact ⟨f, by simp [fitOf, hap, hg], h1, by rw [← h]⟩

theorem collectStrains_some_mem (g : String → Option LCRec) (l : List String)
    (m : List (String × LCRec)) (h : collectStrains g l = some m)
    (s : String) (hs : s ∈ l) : ∃ r, g s = some r ∧ (s, r) ∈ m := by
  induction l generalizing m with
  | nil => cases hs
  | cons a rest ih =>
    unfold collectStrains at h
    cases hg : g a with
    | none => rw [hg] at h; simp at h
    | some r =>
      rw [hg] at h
      cases hr : collectStrains g rest with
      | none => rw [hr] at h; simp at h
      | some m' =>
        rw [hr] at h
        simp at h
        rcases List.mem_cons.1 hs with hs' | hs'
        · subst hs'
          exact ⟨r, hg, by rw [← h]; exact List.mem_cons_self _ _⟩
        · obtain ⟨r', hgr, hmem⟩ := ih m' hr hs'
          exact ⟨r', hgr, by rw [← h]; exact List.mem_cons_of_mem _ hmem⟩

theorem collectStrains_none (g : String → Option LCRec) (l : List String)
    (s : String) (hs : s ∈ l) (hg : g s = none) : collectStrains g l = none := by
  induction l with
  | nil => cases hs
  | cons a rest ih =>
    rcases List.mem_cons.1 hs with hs' | hs'
    · subst hs'
      unfold collectStrains
      rw [hg]
    · unfold collectStrains
      cases hga : g a with
      | none => rfl
      | some r => rw [ih hs']; rfl

/-- C1: with `by_strain` true, `calculate_lc_probit` maps each distinct
strain to a record whose LC field is
`exp((phiInv(lc_value/100) - beta0) / beta1)` for that strain's fit on the
strain-filtered rows; with `by_strain` false, one such record from one fit
over the pooled table; and the call fails when a required fit does not
converge or its slope `beta1` is zero. -/
theorem C1_calculate_lc_probit_lc (phiInv expA : ℚ → ℚ)
    (glmFit : List DoseRow → Option GlmFit) (lcv : ℚ) (df : List DoseRow) :
    (∀ m, (calculate_lc_probit phiInv expA glmFit lcv df true).2
        = ProbitResult.perStrain (some m) →
      ∀ s, s ∈ uniqueStrains df → ∃ f r,
        fitOf glmFit (filterStrain s df) = some f ∧ f.beta1 ≠ 0 ∧ (s, r) ∈ m ∧
        r.lc = expA ((phiInv (lcv / 100) - f.beta0) / f.beta1))
    ∧ (∀ r, (calculate_lc_probit phiInv expA glmFit lcv df false).2
        = ProbitResult.single (some r) →
      ∃ f, fitOf glmFit df = some f ∧ f.beta1 ≠ 0 ∧
        r.lc = expA ((phiInv (lcv / 100) - f.beta0) / f.beta1))
    ∧ (∀ s, s ∈ uniqueStrains df →
      (fitOf glmFit (filterStrain s df) = none ∨
        (∃ f, fitOf glmFit (filterStrain s df) = some f ∧ f.beta1 = 0)) →
      (calculate_lc_probit phiInv expA glmFit lcv df true).2 = ProbitResult.perStrain none)
    ∧ ((fitOf glmFit df = none ∨ (∃ f, fitOf glmFit df = some f ∧ f.beta1 = 0)) →
      (calculate_lc_probit phiInv expA glmFit lcv df false).2 = ProbitResult.single none) := by
  refine ⟨?_, ?_, ?_, ?_⟩
  · intro m hm s hs
    have hm' : ProbitResult.perStrain (collectStrains
        (fun s => (calculate_lc phiInv expA glmFit lcv (filterStrain s df)).2)
        (uniqueStrains df)) = ProbitResult.perStrain (some m) := hm
    have hc := ProbitResult.perStrain.inj hm'
    obtain ⟨r, hg, hmem⟩ := collectStrains_some_mem _ _ m hc s hs
    obtain ⟨f, hf, h1, hlc⟩ := calculate_lc_snd_inv phiInv expA glmFit lcv _ r hg
    exact ⟨f, r, hf, h1, hmem, hlc⟩
  · intro r hr
    have hr' : ProbitResult.single (calculate_lc phiInv expA glmFit lcv df).2
        = ProbitResult.single (some r) := hr
    exact calculate_lc_snd_inv phiInv expA glmFit lcv df r (ProbitResult.single.inj hr')
  · intro s hs hfail
    have hnone : (calculate_lc phiInv expA glmFit lcv (filterStrain s df)).2 = none :=
      calculate_lc_snd_none phiInv expA glmFit lcv _ hfail
    show ProbitResult.perStrain (collectStrains
      (fun s => (calculate_lc phiInv expA glmFit lcv (filterStrain s df)).2)
      (uniqueStrains df)) = ProbitResult.perStrain none
    rw [collectStrains_none _ _ s hs hnone]
  · intro hfail
    show ProbitResult.single (calculate_lc phiInv expA glmFit lcv df).2
      = ProbitResult.single none
    rw [calculate_lc_snd_none phiInv expA glmFit lcv df hfail]

/-- Witness for C1 on a one-strain table with a fitter returning intercept
0 and slope 1. -/
theorem C1_calculate_lc_probit_lc_witness :
    ∃ f r, fitOf (fun _ => some ⟨0, 1, 0, 0⟩)
        (filterStrain "A" [⟨"A", 1, 1, 1, none⟩]) = some f ∧ f.beta1 ≠ 0 ∧
      ("A", r) ∈ [("A", (⟨(0 : ℚ), 0, 0⟩ : LCRec))] ∧
      r.lc = (fun x : ℚ => x) (((fun _ : ℚ => (0 : ℚ)) ((50 : ℚ) / 100) - f.beta0) / f.beta1) :=
  (C1_calculate_lc_probit_lc (fun _ => 0) (fun x => x) (fun _ => some ⟨0, 1, 0, 0⟩)
    50 [⟨"A", 1, 1, 1, none⟩]).1 [("A", ⟨0, 0, 0⟩)]
    (by norm_num [calculate_lc_probit, uniqueStrains, filterStrain, calculate_lc,
      addProportion, pdiv, collectStrains])
    "A" (by simp [uniqueStrains])

/-- C3: the confidence interval of the LC estimate substitutes the
`±1.96`-standard-error perturbations of the intercept and the slope into
the LC formula, with no covariance correction. -/
theorem C3_ci_perturbation (phiInv expA : ℚ → ℚ) (glmFit : List DoseRow → Option GlmFit)
    (lcv : ℚ) (data : List DoseRow) (f : GlmFit)
    (hf : fitOf glmFit data = some f) (h1 : f.beta1 ≠ 0)
    (h2 : f.beta1 + 1.96 * f.se1 ≠ 0) (h3 : f.beta1 - 1.96 * f.se1 ≠ 0) :
    ∃ r, (calculate_lc phiInv expA glmFit lcv data).2 = some r ∧
      r.ci_lower = expA ((phiInv (lcv / 100) - f.beta0 - 1.96 * f.se0)
        / (f.beta1 + 1.96 * f.se1)) ∧
      r.ci_upper = expA ((phiInv (lcv / 100) - f.beta0 + 1.96 * f.se0)
        / (f.beta1 - 1.96 * f.se1)) :=
  ⟨_, calculate_lc_snd_some phiInv expA glmFit lcv data f hf h1 h2 h3, rfl, rfl⟩

/-- Witness for C3 with a fitter returning intercept 0, slope 1 and both
standard errors 1. -/
theorem C3_ci_perturbation_witness :
    ∃ r, (calculate_lc (fun _ => (0 : ℚ)) (fun x => x) (fun _ => some ⟨0, 1, 1, 1⟩)
        50 [⟨"A", 1, 1, 1, none⟩]).2 = some r ∧
      r.ci_lower = (fun x : ℚ => x) (((fun _ : ℚ => (0 : ℚ)) ((50 : ℚ) / 100) - 0 - 1.96 * 1)
        / (1 + 1.96 * 1)) ∧
      r.ci_upper = (fun x : ℚ => x) (((fun _ : ℚ => (0 : ℚ)) ((50 : ℚ) / 100) - 0 + 1.96 * 1)
        / (1 - 1.96 * 1)) :=
  C3_ci_perturbation (fun _ => 0) (fun x => x) (fun _ => some ⟨0, 1, 1, 1⟩)
    50 [⟨"A", 1, 1, 1, none⟩] ⟨0, 1, 1, 1⟩
    (by norm_num [fitOf, addProportion, pdiv]) (by norm_num) (by norm_num) (by norm_num)

theorem addProportion_eq_map (df : List DoseRow) (h : ∀ r ∈ df, r.total ≠ 0) :
    addProportion df
      = some (df.map (fun r => { r with proportion := some (r.dead / r.total) })) := by
  induction df with
  | nil => rfl
  | cons r rs ih =>
    have hr : r.total ≠ 0 := h r (List.mem_cons_self r rs)
    have hrs := ih (fun x hx => h x (List.mem_cons_of_mem _ hx))
    simp [addProportion, pdiv, hr, hrs]

/-- C9: `plot_lc_probit` writes into the caller's frame: every row gets a
`proportion` column equal to its own `dead/total` (overwriting any previous
one), while every other cell, every row, and the row order are unchanged. -/
theorem C9_plot_lc_probit_adds_proportion (df : List DoseRow)
    (h : ∀ r ∈ df, r.total ≠ 0) :
    plot_lc_probit_df df
      = some (df.map (fun r => { r with proportion := some (r.dead / r.total) })) :=
  addProportion_eq_map df h

/-- Witness for C9 on a one-row frame with `total = 2, dead = 1`. -/
theorem C9_plot_lc_probit_adds_proportion_witness :
    plot_lc_probit_df [⟨"A", 1, 2, 1, none⟩]
      = some ([(⟨"A", 1, 2, 1, none⟩ : DoseRow)].map
          (fun r => { r with proportion := some (r.dead / r.total) })) :=
  C9_plot_lc_probit_adds_proportion [⟨"A", 1, 2, 1, none⟩] (by norm_num)

/-- C10: with `by_strain` true, `calculate_lc_probit` leaves the caller's
frame exactly as it was: each strain's `proportion` column is assigned only
on the copy produced by the boolean-mask selection `df[df['strain'] == s]`,
never on `df` itself. -/
theorem C10_by_strain_preserves_frame (phiInv expA : ℚ → ℚ)
    (glmFit : List DoseRow → Option GlmFit) (lcv : ℚ) (df : List DoseRow) :
    (calculate_lc_probit phiInv expA glmFit lcv df true).1 = df := rfl

/-- C5: `load_bioassay_data` never propagates a failure to its caller: an
extension of the lowercased path outside `.xlsx`/`.xls`/`.csv`/`.tsv`, or a
failing read, produces `none` together with one printed diagnostic line,
while a successful read through the reader matching the extension returns
that reader's table and prints nothing. -/
theorem C5_load_never_raises {α : Type} (readExcel readCsv readTsv : String → Except String α)
    (path : String) :
    ((splitext (strLower path)).2 ∉ [".xlsx", ".xls", ".csv", ".tsv"] →
      load_bioassay_data readExcel readCsv readTsv path
        = (none, ["Error loading file: "
            ++ ("Unsupported file format: " ++ (splitext (strLower path)).2)]))
    ∧ (((splitext (strLower path)).2 = ".xlsx" ∨ (splitext (strLower path)).2 = ".xls") →
      (∀ t, readExcel path = Except.ok t →
        load_bioassay_data readExcel readCsv readTsv path = (some t, []))
      ∧ (∀ e, readExcel path = Except.error e →
        load_bioassay_data readExcel readCsv readTsv path
          = (none, ["Error loading file: " ++ e])))
    ∧ ((splitext (strLower path)).2 = ".csv" →
      (∀ t, readCsv path = Except.ok t →
        load_bioassay_data readExcel readCsv readTsv path = (some t, []))
      ∧ (∀ e, readCsv path = Except.error e →
        load_bioassay_data readExcel readCsv readTsv path
          = (none, ["Error loading file: " ++ e])))
    ∧ ((splitext (strLower path)).2 = ".tsv" →
      (∀ t, readTsv path = Except.ok t →
        load_bioassay_data readExcel readCsv readTsv path = (some t, []))
      ∧ (∀ e, readTsv path = Except.error e →
        load_bioassay_data readExcel readCsv readTsv path
          = (none, ["Error loading file: " ++ e]))) := by
  refine ⟨?_, ?_, ?_, ?_⟩
  · intro hext
    simp only [List.mem_cons, List.not_mem_nil, or_false, not_or] at hext
    obtain ⟨h1, h2, h3, h4⟩ := hext
    simp [load_bioassay_data, h1, h2, h3, h4]
  · intro hext
    constructor
    · intro t ht
      rcases hext with h | h <;> simp [load_bioassay_data, h, ht]
    · intro e he
      rcases hext with h | h <;> simp [load_bioassay_data, h, he]
  · intro hext
    constructor
    · intro t ht
      simp [load_bioassay_data, hext, ht]
    · intro e he
      simp [load_bioassay_data, hext, he]
  · intro hext
    constructor
    · intro t ht
      simp [load_bioassay_data, hext, ht]
    · intro e he
      simp [load_bioassay_data, hext, he]

/-- Witness for C5: an uppercase `.Csv` path read successfully via the csv
reader, and an unsupported `.json` path rejected without raising. -/
theorem C5_load_never_raises_witness :
    load_bioassay_data (fun _ => Except.error "no excel") (fun _ => Except.ok 7)
        (fun _ => Except.error "no tsv") "DATA.Csv" = (some 7, []) ∧
    load_bioassay_data (fun _ => (Except.error "no excel" : Except String ℕ))
        (fun _ => Except.ok 7) (fun _ => Except.error "no tsv") "data.json"
      = (none, ["Error loading file: "
          ++ ("Unsupported file format: " ++ (splitext (strLower "data.json")).2)]) := by
  constructor
  · exact ((C5_load_never_raises (fun _ => Except.error "no excel") (fun _ => Except.ok 7)
      (fun _ => Except.error "no tsv") "DATA.Csv").2.2.1 (by decide)).1 7 rfl
  · exact (C5_load_never_raises (fun _ => (Except.error "no excel" : Except String ℕ))
      (fun _ => Except.ok 7) (fun _ => Except.error "no tsv") "data.json").1 (by decide)

end Bioassay
